import Mathlib

/-!
Shallow embedding of the core of the morsecode rhythm-authentication
repository: the enrollment accumulator (`src/enrollment.py`), the matcher
(`src/matcher.py`), the optimized feature extractor
(`src/optimized_feature_extractor.py`) and the dot/dash separation
sub-score of the rhythm analyzer (`src/rhythm_analyzer.py`).

All float values are modelled as exact rationals (`ℚ`).  Calls into
numpy that are not exactly representable in `ℚ` — `np.sqrt` (used by
`np.linalg.norm` and `np.std`) and `np.linalg.inv` — are abstracted as
explicit function parameters `sq : ℚ → ℚ` and
`inv : List (List ℚ) → Option (List (List ℚ))` (`none` models the
exception path of the `try/except` around inversion).  Every theorem
below is proved for all such parameters, so no property depends on the
behaviour of the abstracted library calls.
-/

/-- np.mean of a list (sum divided by length; `ℚ` division by zero yields 0,
the sources always guard emptiness where it matters). -/
def npMean (xs : List ℚ) : ℚ := xs.sum / xs.length

/-- np.std of a list: square root of the mean squared deviation, with the
square root abstracted as `sq`. -/
def npStd (sq : ℚ → ℚ) (xs : List ℚ) : ℚ :=
  sq (npMean (xs.map (fun x => (x - npMean xs) ^ 2)))

/-- np.clip of a scalar to the interval `[lo, hi]`. -/
def npClip (x lo hi : ℚ) : ℚ := min hi (max lo x)

/-- Linear interpolation step of np.percentile: with `i = ⌊h⌋`, the value
`s[i] + (h - i) * (s[i+1] - s[i])` read off a sorted list `s`
(out-of-range reads fall back to `s[i]`, which makes the interpolation
term vanish exactly when numpy would not read `s[i+1]`). -/
def lin_interp (s : List ℚ) (h : ℚ) : ℚ :=
  let i := (⌊h⌋).toNat
  let lo := s.getD i 0
  let hi := s.getD (i + 1) lo
  lo + (h - (i : ℚ)) * (hi - lo)

/-- np.percentile(xs, q) with the default linear interpolation: sort, take
the fractional index `h = (n - 1) * q / 100` and interpolate. -/
def percentile (xs : List ℚ) (q : ℚ) : ℚ :=
  if xs.length = 0 then 0
  else lin_interp (xs.insertionSort (fun a b => a ≤ b))
    (((xs.length : ℚ) - 1) * q / 100)

/-- np.median is the 50th percentile with linear interpolation. -/
def npMedian (xs : List ℚ) : ℚ := percentile xs 50

/-- The rhythm metrics dict consumed by `Enrollment._compute_quality` and
`Enrollment._passes_gate`.  The field `outlier_rat` models the key
"outlier_ratio"; the Python code reads it with `metrics.get("outlier_ratio", 0.0)`,
which `Option.getD 0` mirrors. -/
structure RhythmMetrics where
  timing_precision : ℚ
  tempo_consistency : ℚ
  pattern_accuracy : ℚ
  outlier_rat : Option ℚ
deriving DecidableEq, Repr

/-- Mutable state of `Enrollment` (`src/enrollment.py` lines 5-9):
`min_samples`, `max_samples`, and the accepted `samples` / `qualities`. -/
structure EnrollmentState where
  min_samples : ℕ
  max_samples : ℕ
  samples : List (List ℚ)
  qualities : List ℚ
deriving DecidableEq, Repr

/-- `Enrollment.__init__(min_samples, max_samples)`: empty lists. -/
def Enrollment.init (minS maxS : ℕ) : EnrollmentState :=
  ⟨minS, maxS, [], []⟩

/-- `Enrollment.is_complete` (line 11-12). -/
def Enrollment.is_complete (st : EnrollmentState) : Bool :=
  st.min_samples ≤ st.samples.length

/-- `Enrollment.can_accept_more` (line 14-15). -/
def Enrollment.can_accept_more (st : EnrollmentState) : Bool :=
  st.samples.length < st.max_samples

/-- `Enrollment._compute_quality` (lines 20-38):
0.40·timing + 0.30·tempo + 0.20·pattern + 0.10·(1 − outlier), clipped
to [0, 1] by np.clip. -/
def Enrollment.compute_quality (m : RhythmMetrics) : ℚ :=
  let outlier_score := 1 - m.outlier_rat.getD 0
  npClip (2/5 * m.timing_precision + 3/10 * m.tempo_consistency
    + 1/5 * m.pattern_accuracy + 1/10 * outlier_score) 0 1

/-- `Enrollment._passes_gate` (lines 43-53): returns the pair
(accepted, reason). -/
def Enrollment.passes_gate (m : RhythmMetrics) : Bool × Option String :=
  if m.pattern_accuracy < 1 then (false, some "Pattern mismatch")
  else if m.timing_precision < 85/100 then (false, some "Timing precision too low")
  else if m.outlier_rat.getD 0 > 1/4 then (false, some "Too many rhythm outliers")
  else (true, none)

/-- Result dict of `Enrollment.add` (lines 66-72). -/
structure AddResult where
  status : String
  quality_score : ℚ
  rejection_reason : Option String
  samples_collected : ℕ
  samples_needed : ℕ
deriving DecidableEq, Repr

/-- `Enrollment.add` (lines 58-72): computes the quality, runs the gate,
appends (vector, quality) when accepted, and returns the new state
together with the result dict.  `max(0, min_samples - len)` is truncated
`ℕ` subtraction. -/
def Enrollment.add (st : EnrollmentState) (fv : List ℚ) (m : RhythmMetrics) :
    EnrollmentState × AddResult :=
  let quality := Enrollment.compute_quality m
  let accepted := (Enrollment.passes_gate m).1
  let reason := (Enrollment.passes_gate m).2
  let st' := if accepted then
    { st with samples := st.samples ++ [fv], qualities := st.qualities ++ [quality] }
    else st
  (st', { status := if accepted then "accepted" else "rejected"
          quality_score := quality
          rejection_reason := reason
          samples_collected := st'.samples.length
          samples_needed := st.min_samples - st'.samples.length })

/-- Profile dict returned by `Enrollment.build_profile` (lines 85-89). -/
structure BuiltProfile where
  mean_vector : List ℚ
  sample_count : ℕ
  consistency_score : ℚ
deriving Repr

/-- np.average(rows, axis=0, weights=ws): per coordinate, the weighted sum
divided by the sum of the weights. -/
def npAverage (rows : List (List ℚ)) (ws : List ℚ) : List ℚ :=
  (List.range (rows.headD []).length).map (fun j =>
    (List.zipWith (fun w row => w * row.getD j 0) ws rows).sum / ws.sum)

/-- `Enrollment.build_profile` (lines 77-89): weights are the stored
qualities normalized by their sum; the mean vector is the weighted
average of the stored samples; consistency is 1 − std of the qualities,
clipped to [0, 1]. -/
def Enrollment.build_profile (sq : ℚ → ℚ) (st : EnrollmentState) : BuiltProfile :=
  let weights := st.qualities.map (fun q => q / st.qualities.sum)
  { mean_vector := npAverage st.samples weights
    sample_count := st.samples.length
    consistency_score := npClip (1 - npStd sq st.qualities) 0 1 }

/-- A sequence of unguarded `add` calls starting from a state. -/
def Enrollment.run_adds (st : EnrollmentState)
    (inputs : List (List ℚ × RhythmMetrics)) : EnrollmentState :=
  inputs.foldl (fun s i => (Enrollment.add s i.1 i.2).1) st

/-- A sequence of `add` calls in which the caller obeys the documented
discipline: `add` is attempted only while `can_accept_more()` is true. -/
def Enrollment.guarded_run (st : EnrollmentState)
    (inputs : List (List ℚ × RhythmMetrics)) : EnrollmentState :=
  inputs.foldl
    (fun s i => if Enrollment.can_accept_more s then (Enrollment.add s i.1 i.2).1 else s) st

/-- A metrics value that passes the hard gate with maximal scores. -/
def mGood : RhythmMetrics :=
  { timing_precision := 1, tempo_consistency := 1, pattern_accuracy := 1,
    outlier_rat := some 0 }

/-- A metrics value whose pattern accuracy fails the gate. -/
def mBadPattern : RhythmMetrics :=
  { timing_precision := 1, tempo_consistency := 1, pattern_accuracy := 0,
    outlier_rat := none }

instance (m : RhythmMetrics) : Decidable
    (0 ≤ m.timing_precision ∧ m.timing_precision ≤ 1 ∧
     0 ≤ m.tempo_consistency ∧ m.tempo_consistency ≤ 1 ∧
     0 ≤ m.pattern_accuracy ∧ m.pattern_accuracy ≤ 1 ∧
     0 ≤ m.outlier_rat.getD 0 ∧ m.outlier_rat.getD 0 ≤ 1) := by
  infer_instance

/-- All metric fields (with the missing-key default for the outlier field)
lie in [0, 1], as `_compute_quality`'s docstring assumes. -/
def metrics_in_range (m : RhythmMetrics) : Prop :=
  0 ≤ m.timing_precision ∧ m.timing_precision ≤ 1 ∧
  0 ≤ m.tempo_consistency ∧ m.tempo_consistency ≤ 1 ∧
  0 ≤ m.pattern_accuracy ∧ m.pattern_accuracy ≤ 1 ∧
  0 ≤ m.outlier_rat.getD 0 ∧ m.outlier_rat.getD 0 ≤ 1

instance (m : RhythmMetrics) : Decidable (metrics_in_range m) := by
  unfold metrics_in_range; infer_instance

lemma list_sum_map_div (l : List ℚ) (d : ℚ) :
    (l.map (fun q => q / d)).sum = l.sum / d := by
  induction l with
  | nil => simp
  | cons a t ih => simp [ih, add_div]

lemma quality_ge_of_gate (m : RhythmMetrics) (hr : metrics_in_range m)
    (hg : (Enrollment.passes_gate m).1 = true) :
    615/1000 ≤ Enrollment.compute_quality m := by
  obtain ⟨t0, t1, c0, c1, p0, p1, o0, o1⟩ := hr
  unfold Enrollment.passes_gate at hg
  by_cases hp : m.pattern_accuracy < 1
  · rw [if_pos hp] at hg; simp at hg
  rw [if_neg hp] at hg
  by_cases ht : m.timing_precision < 85/100
  · rw [if_pos ht] at hg; simp at hg
  rw [if_neg ht] at hg
  by_cases ho : m.outlier_rat.getD 0 > 1/4
  · rw [if_pos ho] at hg; simp at hg
  rw [if_neg ho] at hg
  push_neg at hp ht ho
  simp only [Enrollment.compute_quality, npClip]
  refine le_min (by norm_num) ?_
  refine le_trans ?_ (le_max_right 0 _)
  linarith

lemma add_state_max (st : EnrollmentState) (fv : List ℚ) (m : RhythmMetrics) :
    ((Enrollment.add st fv m).1).max_samples = st.max_samples := by
  simp only [Enrollment.add]
  split <;> rfl

lemma add_state_len (st : EnrollmentState) (fv : List ℚ) (m : RhythmMetrics) :
    ((Enrollment.add st fv m).1).samples.length ≤ st.samples.length + 1 := by
  simp only [Enrollment.add]
  split <;> simp

lemma guarded_run_invariant (inputs : List (List ℚ × RhythmMetrics)) :
    ∀ st : EnrollmentState, st.samples.length ≤ st.max_samples →
      (Enrollment.guarded_run st inputs).samples.length ≤ st.max_samples ∧
      (Enrollment.guarded_run st inputs).max_samples = st.max_samples := by
  induction inputs with
  | nil => exact fun st h => ⟨h, rfl⟩
  | cons a rest ih =>
    intro st h
    set st' := if Enrollment.can_accept_more st then (Enrollment.add st a.1 a.2).1 else st
      with hst'
    have hmax : st'.max_samples = st.max_samples := by
      rw [hst']; split
      · exact add_state_max st a.1 a.2
      · rfl
    have hlen : st'.samples.length ≤ st.max_samples := by
      rw [hst']; split
      · rename_i hc
        have hlt : st.samples.length < st.max_samples := by
          simpa [Enrollment.can_accept_more] using hc
        have hle := add_state_len st a.1 a.2
        omega
      · exact h
    have hrun : Enrollment.guarded_run st (a :: rest) = Enrollment.guarded_run st' rest := rfl
    rw [hrun]
    obtain ⟨ha, hb⟩ := ih st' (by rw [hmax]; exact hlen)
    exact ⟨ha.trans (le_of_eq hmax), hb.trans hmax⟩

/-- C1 (amended): `add()` itself does not enforce the cap, but whenever the
caller follows the documented discipline — attempting `add` only while
`can_accept_more()` is true — every reachable state of an enrollment
session created with `init min_samples max_samples` holds at most
`max_samples` accepted samples. -/
theorem C1_guarded_cap (minS maxS : ℕ) (inputs : List (List ℚ × RhythmMetrics)) :
    (Enrollment.guarded_run (Enrollment.init minS maxS) inputs).samples.length ≤ maxS :=
  (guarded_run_invariant inputs (Enrollment.init minS maxS) (by simp [Enrollment.init])).1

/-- C1 counterexample: six unguarded gate-passing `add()` calls on an
enrollment created with the default parameters (min 3, max 5) leave the
session with 6 stored samples, exceeding `max_samples = 5`. -/
theorem C1_counterexample :
    (Enrollment.run_adds (Enrollment.init 3 5) (List.replicate 6 ([1], mGood))).samples.length = 6 ∧
    ¬((Enrollment.run_adds (Enrollment.init 3 5)
        (List.replicate 6 ([1], mGood))).samples.length
      ≤ (Enrollment.init 3 5).max_samples) := by
  have hg : Enrollment.passes_gate mGood = (true, none) := by
    norm_num [Enrollment.passes_gate, mGood]
  constructor <;>
    simp [Enrollment.run_adds, List.replicate, Enrollment.add, hg, Enrollment.init]

/-- C2: any metrics with `pattern_accuracy < 1.0` make `add()` return
status "rejected" with reason "Pattern mismatch", leaving the stored
samples and qualities (indeed the whole state) unchanged. -/
theorem C2_pattern_mismatch_rejected (st : EnrollmentState) (fv : List ℚ)
    (m : RhythmMetrics) (h : m.pattern_accuracy < 1) :
    (Enrollment.add st fv m).2.status = "rejected" ∧
    (Enrollment.add st fv m).2.rejection_reason = some "Pattern mismatch" ∧
    (Enrollment.add st fv m).1 = st := by
  simp [Enrollment.add, Enrollment.passes_gate, h]

theorem C2_witness :
    (Enrollment.add (Enrollment.init 3 5) [1] mBadPattern).2.status = "rejected" ∧
    (Enrollment.add (Enrollment.init 3 5) [1] mBadPattern).2.rejection_reason
      = some "Pattern mismatch" ∧
    (Enrollment.add (Enrollment.init 3 5) [1] mBadPattern).1 = Enrollment.init 3 5 :=
  C2_pattern_mismatch_rejected (Enrollment.init 3 5) [1] mBadPattern (by decide)

/-- C9: every metrics dict with all fields in [0, 1] that passes the hard
gate gets a stored quality of at least 0.615; hence all stored qualities
are positive and the quality sum `build_profile` divides by is positive
for any non-empty accepted set. -/
theorem C9_gate_quality_bound (ms : List RhythmMetrics) (h1 : ms ≠ [])
    (h2 : ∀ m ∈ ms, metrics_in_range m ∧ (Enrollment.passes_gate m).1 = true) :
    (∀ m ∈ ms, 615/1000 ≤ Enrollment.compute_quality m) ∧
    0 < (ms.map Enrollment.compute_quality).sum := by
  have hall : ∀ m ∈ ms, 615/1000 ≤ Enrollment.compute_quality m :=
    fun m hm => quality_ge_of_gate m (h2 m hm).1 (h2 m hm).2
  refine ⟨hall, List.sum_pos _ ?_ ?_⟩
  · intro x hx
    obtain ⟨m, hm, rfl⟩ := List.mem_map.mp hx
    exact lt_of_lt_of_le (by norm_num) (hall m hm)
  · simpa using h1

lemma mGood_passes : metrics_in_range mGood ∧ (Enrollment.passes_gate mGood).1 = true := by
  constructor
  · exact (by decide : metrics_in_range mGood)
  · norm_num [Enrollment.passes_gate, mGood]

theorem C9_witness :
    (∀ m ∈ [mGood], 615/1000 ≤ Enrollment.compute_quality m) ∧
    0 < ([mGood].map Enrollment.compute_quality).sum :=
  C9_gate_quality_bound [mGood] (by decide)
    (fun m hm => by rw [List.mem_singleton.mp hm]; exact mGood_passes)

/-- C4: for any enrollment state with a non-empty set of positive stored
qualities, the normalized per-sample weights used by `build_profile` sum
to exactly 1, and the returned `mean_vector` equals, coordinate by
coordinate, the weighted sum of the stored sample vectors under those
weights. -/
theorem C4_build_profile_weighted_mean (sq : ℚ → ℚ) (st : EnrollmentState)
    (h1 : st.qualities ≠ []) (h2 : ∀ q ∈ st.qualities, 0 < q) :
    (st.qualities.map (fun q => q / st.qualities.sum)).sum = 1 ∧
    (Enrollment.build_profile sq st).mean_vector =
      (List.range (st.samples.headD []).length).map (fun j =>
        (List.zipWith (fun w row => w * row.getD j 0)
          (st.qualities.map (fun q => q / st.qualities.sum)) st.samples).sum) := by
  have hS : 0 < st.qualities.sum := List.sum_pos _ h2 h1
  have hw : (st.qualities.map (fun q => q / st.qualities.sum)).sum = 1 := by
    rw [list_sum_map_div, div_self hS.ne']
  refine ⟨hw, ?_⟩
  simp only [Enrollment.build_profile, npAverage, hw, div_one]

/-- Enrollment state used to witness C4. -/
def stW : EnrollmentState := ⟨3, 5, [[1], [2]], [1, 1]⟩

theorem C4_witness :
    ((stW.qualities.map (fun q => q / stW.qualities.sum)).sum = 1 ∧
     (Enrollment.build_profile id stW).mean_vector =
       (List.range (stW.samples.headD []).length).map (fun j =>
         (List.zipWith (fun w row => w * row.getD j 0)
           (stW.qualities.map (fun q => q / stW.qualities.sum)) stW.samples).sum)) :=
  C4_build_profile_weighted_mean id stW (by decide) (by decide)

/-- Stored profile dict as seen by `Matcher` (`src/matcher.py`): every key
is optional; `_normalize_profile` repairs naming drift between `mean` /
`mean_vector` and `std` / `std_vector` / `std_dev`. -/
structure Profile where
  mean : Option (List ℚ)
  mean_vector : Option (List ℚ)
  std : Option (List ℚ)
  std_vector : Option (List ℚ)
  std_dev : Option (List ℚ)
  cov_matrix : Option (List (List ℚ))
  recommended_threshold : Option ℚ
deriving DecidableEq, Repr

/-- Matcher configuration (`Matcher.__init__`, lines 21-24). -/
structure Matcher where
  threshold : Option ℚ
  metric : String
  use_dynamic_threshold : Bool
deriving DecidableEq, Repr

/-- `Matcher.MIN_THRESHOLD = 2.5` (line 16). -/
def Matcher.MIN_THRESHOLD : ℚ := 5/2

/-- `Matcher.TOLERANCE_MULTIPLIER = 1.2` (line 19). -/
def Matcher.TOLERANCE_MULTIPLIER : ℚ := 6/5

/-- `Matcher._normalize_profile` (lines 26-49): copy `mean_vector` into
`mean` when `mean` is absent, and `std_vector` / `std_dev` into `std`
when `std` is absent (the np.array conversions are identities here). -/
def Matcher.normalize_profile (p : Profile) : Profile :=
  { p with
    mean := if p.mean = none then p.mean_vector else p.mean
    std := if p.std = none then
        (match p.std_vector with
         | some v => some v
         | none => p.std_dev)
      else p.std }

/-- n × n identity matrix (np.eye). -/
def matEye (n : ℕ) : List (List ℚ) :=
  (List.range n).map (fun i => (List.range n).map (fun j => if i = j then 1 else 0))

/-- Scalar multiple of a matrix. -/
def matScale (c : ℚ) (a : List (List ℚ)) : List (List ℚ) :=
  a.map (fun row => row.map (fun x => c * x))

/-- Entrywise matrix sum. -/
def matAdd (a b : List (List ℚ)) : List (List ℚ) :=
  List.zipWith (fun r s => List.zipWith (fun x y => x + y) r s) a b

/-- Matrix–vector product. -/
def matVecMul (a : List (List ℚ)) (v : List ℚ) : List ℚ :=
  a.map (fun row => (List.zipWith (fun x y => x * y) row v).sum)

/-- Dot product of two lists. -/
def listDot (u v : List ℚ) : ℚ := (List.zipWith (fun x y => x * y) u v).sum

/-- `Matcher._euclidean_distance` (lines 101-105):
np.linalg.norm(test − mean), the square root abstracted as `sq`. -/
def Matcher.euclidean_distance (sq : ℚ → ℚ) (tv : List ℚ) (p : Profile) : ℚ :=
  sq ((List.zipWith (fun a b => (a - b) ^ 2) tv (p.mean.getD [])).sum)

/-- `Matcher._manhattan_distance` (lines 107-111): sum of absolute
differences. -/
def Matcher.manhattan_distance (tv : List ℚ) (p : Profile) : ℚ :=
  (List.zipWith (fun a b => |a - b|) tv (p.mean.getD [])).sum

/-- `Matcher._mahalanobis_distance` (lines 113-130): fall back to
euclidean when the covariance is absent or its row count differs from
the test vector's length; otherwise regularize with 1e-4·I and invert,
where `inv` abstracts np.linalg.inv and `none` is the exception path of
the surrounding `try/except`. -/
def Matcher.mahalanobis_distance (sq : ℚ → ℚ)
    (inv : List (List ℚ) → Option (List (List ℚ))) (tv : List ℚ) (p : Profile) : ℚ :=
  match p.cov_matrix with
  | none => Matcher.euclidean_distance sq tv p
  | some cov =>
    if cov.length ≠ tv.length then Matcher.euclidean_distance sq tv p
    else
      match inv (matAdd cov (matScale (1/10000) (matEye cov.length))) with
      | none => Matcher.euclidean_distance sq tv p
      | some ci =>
        let diff := List.zipWith (fun a b => a - b) tv (p.mean.getD [])
        sq (listDot diff (matVecMul ci diff))

/-- `Matcher._calculate_confidence` (lines 132-142). -/
def Matcher.calculate_confidence (distance threshold : ℚ) : ℚ :=
  if threshold = 0 then 0
  else if distance < threshold then 1 - distance / threshold
  else 1 - threshold / distance

/-- Base threshold of `Matcher.authenticate` (lines 62-66): the profile's
recommended threshold when dynamic mode is on and the key exists, else
the configured threshold, else the default 2.0. -/
def Matcher.base_threshold (m : Matcher) (p : Profile) : ℚ :=
  match m.use_dynamic_threshold, p.recommended_threshold with
  | true, some r => r
  | _, _ => m.threshold.getD 2

/-- Effective threshold of `Matcher.authenticate` (lines 68-73): floored
at `MIN_THRESHOLD`, then multiplied by `TOLERANCE_MULTIPLIER`. -/
def Matcher.effective_threshold (m : Matcher) (p : Profile) : ℚ :=
  max (Matcher.base_threshold m p) Matcher.MIN_THRESHOLD * Matcher.TOLERANCE_MULTIPLIER

/-- Details dict returned by `Matcher.authenticate`; `margin` and
`metric` are absent (`none`) on the early missing-mean return. -/
structure AuthDetails where
  distance : ℚ
  threshold : ℚ
  margin : Option ℚ
  confidence : ℚ
  metric : Option String
deriving DecidableEq, Repr

/-- `Matcher.authenticate` (lines 51-99): normalize the profile, return
the 999.0 sentinel when no mean vector exists under any accepted name,
else compare the selected metric's distance with the effective
threshold (unknown metric strings fall back to euclidean). -/
def Matcher.authenticate (sq : ℚ → ℚ) (inv : List (List ℚ) → Option (List (List ℚ)))
    (m : Matcher) (tv : List ℚ) (profile0 : Profile) : ℚ × Bool × AuthDetails :=
  let profile := Matcher.normalize_profile profile0
  match profile.mean with
  | none => (999, false, ⟨999, 0, none, 1, none⟩)
  | some _ =>
    let eff := Matcher.effective_threshold m profile
    let distance :=
      if m.metric = "euclidean" then Matcher.euclidean_distance sq tv profile
      else if m.metric = "manhattan" then Matcher.manhattan_distance tv profile
      else if m.metric = "mahalanobis" then Matcher.mahalanobis_distance sq inv tv profile
      else Matcher.euclidean_distance sq tv profile
    let accepted := decide (distance < eff)
    let conf := Matcher.calculate_confidence distance eff
    (distance, accepted, ⟨distance, eff, some (eff - distance), conf, some m.metric⟩)

/-- Per-metric entry of the results dict of
`authenticate_with_multiple_metrics`. -/
structure MetricResult where
  distance : ℚ
  accepted : Bool
  confidence : ℚ
deriving DecidableEq, Repr

/-- Results dict of `authenticate_with_multiple_metrics` (lines 160-183). -/
structure MultiResults where
  euclidean : MetricResult
  manhattan : MetricResult
  mahalanobis : MetricResult
  final_decision : Bool
  avg_confidence : ℚ
  votes : String
deriving DecidableEq, Repr

/-- One iteration of the metric loop (lines 153-165): save the configured
metric, switch to the given one, authenticate, restore.  Returns the
per-metric entry together with the matcher state after the iteration. -/
def Matcher.auth_one (sq : ℚ → ℚ) (inv : List (List ℚ) → Option (List (List ℚ)))
    (m : Matcher) (metric : String) (tv : List ℚ) (p : Profile) : MetricResult × Matcher :=
  let m1 := { m with metric := metric }
  let r := Matcher.authenticate sq inv m1 tv p
  (⟨r.1, r.2.1, r.2.2.confidence⟩, { m1 with metric := m.metric })

/-- `Matcher.authenticate_with_multiple_metrics` (lines 144-185): run the
three metrics in order, average the confidences, count votes, and
decide: accepted if euclidean accepted (with at least its own vote) or
at least two of three metrics accepted.  The second component is the
matcher state after the call. -/
def Matcher.authenticate_with_multiple_metrics (sq : ℚ → ℚ)
    (inv : List (List ℚ) → Option (List (List ℚ)))
    (m : Matcher) (tv : List ℚ) (p0 : Profile) : MultiResults × Matcher :=
  let p := Matcher.normalize_profile p0
  let a := Matcher.auth_one sq inv m "euclidean" tv p
  let b := Matcher.auth_one sq inv a.2 "manhattan" tv p
  let c := Matcher.auth_one sq inv b.2 "mahalanobis" tv p
  let avg := (a.1.confidence + b.1.confidence + c.1.confidence) / 3
  let votes : ℕ := (if a.1.accepted then 1 else 0) + (if b.1.accepted then 1 else 0)
    + (if c.1.accepted then 1 else 0)
  let final : Bool := if a.1.accepted = true ∧ 1 ≤ votes then true else decide (2 ≤ votes)
  (⟨a.1, b.1, c.1, final, avg, toString votes ++ "/3"⟩, c.2)

lemma normalize_mean_eq (p : Profile) :
    (Matcher.normalize_profile p).mean = if p.mean = none then p.mean_vector else p.mean := rfl

lemma normalize_mean_vector_eq (p : Profile) :
    (Matcher.normalize_profile p).mean_vector = p.mean_vector := rfl

lemma normalize_mean_none_iff (p : Profile) :
    (Matcher.normalize_profile p).mean = none ↔ p.mean = none ∧ p.mean_vector = none := by
  rw [normalize_mean_eq]
  by_cases h : p.mean = none <;> simp [h]

lemma authenticate_no_mean (sq : ℚ → ℚ) (inv : List (List ℚ) → Option (List (List ℚ)))
    (m : Matcher) (tv : List ℚ) (p : Profile)
    (h : (Matcher.normalize_profile p).mean = none) :
    Matcher.authenticate sq inv m tv p = (999, false, ⟨999, 0, none, 1, none⟩) := by
  simp only [Matcher.authenticate, h]

/-- C5: when the normalized profile has no mean vector under any accepted
field name, `authenticate_with_multiple_metrics` denies access
(`final_decision = false`) and every per-metric distance is the 999.0
sentinel. -/
theorem C5_no_mean_denied (sq : ℚ → ℚ) (inv : List (List ℚ) → Option (List (List ℚ)))
    (m : Matcher) (tv : List ℚ) (p : Profile)
    (h : (Matcher.normalize_profile p).mean = none) :
    (Matcher.authenticate_with_multiple_metrics sq inv m tv p).1.final_decision = false ∧
    (Matcher.authenticate_with_multiple_metrics sq inv m tv p).1.euclidean.distance = 999 ∧
    (Matcher.authenticate_with_multiple_metrics sq inv m tv p).1.manhattan.distance = 999 ∧
    (Matcher.authenticate_with_multiple_metrics sq inv m tv p).1.mahalanobis.distance = 999 := by
  have hp : (Matcher.normalize_profile (Matcher.normalize_profile p)).mean = none := by
    rcases (normalize_mean_none_iff p).mp h with ⟨h1, h2⟩
    exact (normalize_mean_none_iff _).mpr ⟨h, by rw [normalize_mean_vector_eq]; exact h2⟩
  have e : ∀ M : Matcher,
      Matcher.authenticate sq inv M tv (Matcher.normalize_profile p)
        = (999, false, ⟨999, 0, none, 1, none⟩) :=
    fun M => authenticate_no_mean sq inv M tv _ hp
  simp [Matcher.authenticate_with_multiple_metrics, Matcher.auth_one, e]

/-- A profile with every key absent, used as a concrete missing-enrollment
input. -/
def emptyProfile : Profile := ⟨none, none, none, none, none, none, none⟩

/-- A default matcher configuration, as built by `Matcher()`. -/
def m0 : Matcher := ⟨none, "euclidean", true⟩

theorem C5_witness :
    (Matcher.authenticate_with_multiple_metrics id (fun _ => none) m0 [] emptyProfile).1.final_decision = false ∧
    (Matcher.authenticate_with_multiple_metrics id (fun _ => none) m0 [] emptyProfile).1.euclidean.distance = 999 ∧
    (Matcher.authenticate_with_multiple_metrics id (fun _ => none) m0 [] emptyProfile).1.manhattan.distance = 999 ∧
    (Matcher.authenticate_with_multiple_metrics id (fun _ => none) m0 [] emptyProfile).1.mahalanobis.distance = 999 :=
  C5_no_mean_denied id (fun _ => none) m0 [] emptyProfile (by decide)

lemma effective_threshold_ge (m : Matcher) (p : Profile) :
    3 ≤ Matcher.effective_threshold m p := by
  unfold Matcher.effective_threshold Matcher.MIN_THRESHOLD Matcher.TOLERANCE_MULTIPLIER
  nlinarith [le_max_right (Matcher.base_threshold m p) (5/2 : ℚ)]

/-- C6: whenever authentication proceeds (the normalized profile has a
mean vector), the effective threshold reported in the details — and used
for the accept decision — is at least 2.5 × 1.2 = 3, for every matcher
configuration and every stored recommended threshold. -/
theorem C6_threshold_floor (sq : ℚ → ℚ) (inv : List (List ℚ) → Option (List (List ℚ)))
    (m : Matcher) (tv : List ℚ) (p : Profile)
    (h : (Matcher.normalize_profile p).mean ≠ none) :
    3 ≤ (Matcher.authenticate sq inv m tv p).2.2.threshold := by
  obtain ⟨v, hv⟩ := Option.ne_none_iff_exists'.mp h
  simp only [Matcher.authenticate, hv]
  exact effective_threshold_ge m (Matcher.normalize_profile p)

/-- A profile that stores only a mean vector (and a deliberately tiny
recommended threshold for the C6 witness). -/
def meanOnlyProfile : Profile := ⟨some [0], none, none, none, none, none, some (1/100)⟩

theorem C6_witness :
    3 ≤ (Matcher.authenticate id (fun _ => none) m0 [0] meanOnlyProfile).2.2.threshold :=
  C6_threshold_floor id (fun _ => none) m0 [0] meanOnlyProfile (by decide)

/-- C7: with a missing covariance matrix, or one whose row count differs
from the test vector's length, the mahalanobis distance is exactly the
euclidean distance for the same inputs. -/
theorem C7_mahalanobis_fallback (sq : ℚ → ℚ) (inv : List (List ℚ) → Option (List (List ℚ)))
    (tv : List ℚ) (p : Profile)
    (h : p.cov_matrix = none ∨ ∃ cov, p.cov_matrix = some cov ∧ cov.length ≠ tv.length) :
    Matcher.mahalanobis_distance sq inv tv p = Matcher.euclidean_distance sq tv p := by
  rcases h with h | ⟨cov, hc, hl⟩
  · simp [Matcher.mahalanobis_distance, h]
  · simp [Matcher.mahalanobis_distance, hc, hl]

/-- A profile with a mean vector and a 1 × 1 covariance matrix, mismatched
against a length-2 test vector. -/
def covProfile : Profile := ⟨some [0, 0], none, none, none, none, some [[1]], none⟩

theorem C7_witness :
    Matcher.mahalanobis_distance id (fun _ => none) [0, 0] covProfile
      = Matcher.euclidean_distance id [0, 0] covProfile :=
  C7_mahalanobis_fallback id (fun _ => none) [0, 0] covProfile
    (Or.inr ⟨[[1]], rfl, by decide⟩)

/-- C10: `authenticate_with_multiple_metrics` restores the matcher state:
after the call, `metric`, `threshold` and `use_dynamic_threshold` all
equal their values before the call, despite the temporary metric
switches inside the loop. -/
theorem C10_matcher_state_restored (sq : ℚ → ℚ)
    (inv : List (List ℚ) → Option (List (List ℚ)))
    (m : Matcher) (tv : List ℚ) (p : Profile) :
    (Matcher.authenticate_with_multiple_metrics sq inv m tv p).2 = m := rfl

/-- np.polyfit(x, y, 1)[0] for x = 0..n−1: the least-squares slope
(n·Σxy − Σx·Σy) / (n·Σx² − (Σx)²). -/
def polyfit_slope (ys : List ℚ) : ℚ :=
  let n : ℚ := ys.length
  let xs := (List.range ys.length).map (fun k => (k : ℚ))
  let sx := xs.sum
  let sy := ys.sum
  let sxy := (List.zipWith (fun x y => x * y) xs ys).sum
  let sxx := (xs.map (fun x => x ^ 2)).sum
  (n * sxy - sx * sy) / (n * sxx - sx ^ 2)

/-- `OptimizedFeatureExtractor._calculate_skewness` (lines 216-228). -/
def OptimizedFeatureExtractor.calculate_skewness (sq : ℚ → ℚ) (data : List ℚ) : ℚ :=
  if data.length < 3 then 0
  else
    let mean := npMean data
    let std := npStd sq data
    if std = 0 then 0
    else npMean (data.map (fun x => ((x - mean) / std) ^ 3))

/-- `OptimizedFeatureExtractor._estimate_dot_duration` (lines 81-85). -/
def OptimizedFeatureExtractor.estimate_dot_duration (presses : List ℚ) : ℚ :=
  if presses.length = 0 then 1/10 else percentile presses 25

/-- `OptimizedFeatureExtractor._extract_position_features` (lines 87-109):
first 4 and last 4 normalized presses, padded with the median; the
negative Python index −k reads element `n − k`. -/
def OptimizedFeatureExtractor.position_features (norm_presses norm_gaps : List ℚ) : List ℚ :=
  let n := norm_presses.length
  let med := npMedian norm_presses
  let first := fun (i : ℕ) => if i < n then norm_presses.getD i 0 else med
  let last := fun (k : ℕ) => if k ≤ n then norm_presses.getD (n - k) 0 else med
  [first 0, first 1, first 2, first 3, last 4, last 3, last 2, last 1]

/-- `OptimizedFeatureExtractor._extract_morse_features` (lines 111-142);
`ddt` is the configured `dot_dash_threshold` (default 2.0). -/
def OptimizedFeatureExtractor.morse_features (sq : ℚ → ℚ) (ddt : ℚ)
    (presses gaps : List ℚ) (base_unit : ℚ) : List ℚ :=
  let threshold := base_unit * ddt
  let dots := presses.filter (fun p => p < threshold)
  let dashes := presses.filter (fun p => threshold ≤ p)
  let total_elements := presses.length
  let dot_rat := if 0 < total_elements then (dots.length : ℚ) / total_elements else 0
  let dash_rat := if 0 < total_elements then (dashes.length : ℚ) / total_elements else 0
  let avg_dot := if 0 < dots.length then npMean dots / base_unit else 1
  let avg_dash := if 0 < dashes.length then npMean dashes / base_unit else 3
  let cv_dots := if 1 < dots.length ∧ 0 < npMean dots then npStd sq dots / npMean dots else 0
  let cv_dashes := if 1 < dashes.length ∧ 0 < npMean dashes
    then npStd sq dashes / npMean dashes else 0
  let dash_dot_rat := if 0 < avg_dot then avg_dash / avg_dot else 3
  let avg_gap := if 0 < gaps.length then npMean gaps / base_unit else 1
  [dot_rat, dash_rat, avg_dot, avg_dash, cv_dots, cv_dashes, dash_dot_rat, avg_gap]

/-- `OptimizedFeatureExtractor._extract_statistical_features`
(lines 144-168). -/
def OptimizedFeatureExtractor.statistical_features (sq : ℚ → ℚ)
    (norm_presses norm_gaps : List ℚ) : List ℚ :=
  let press_mean := npMean norm_presses
  let press_std := npStd sq norm_presses
  let press_median := npMedian norm_presses
  let press_iqr := percentile norm_presses 75 - percentile norm_presses 25
  let press_skew := OptimizedFeatureExtractor.calculate_skewness sq norm_presses
  let gap_mean := npMean norm_gaps
  let gap_std := npStd sq norm_gaps
  let gap_median := npMedian norm_gaps
  let gap_iqr := percentile norm_gaps 75 - percentile norm_gaps 25
  let press_gap_rat := if 0 < gap_mean then press_mean / gap_mean else 1
  [press_mean, press_std, press_median, press_iqr, press_skew,
   gap_mean, gap_std, gap_median, gap_iqr, press_gap_rat]

/-- `OptimizedFeatureExtractor._extract_temporal_features`
(lines 170-214). -/
def OptimizedFeatureExtractor.temporal_features (sq : ℚ → ℚ)
    (presses gaps : List ℚ) : List ℚ :=
  let total_time := presses.sum + gaps.sum
  let elements_per_second := if 0 < total_time then (presses.length : ℚ) / total_time else 0
  let rhythm_stability := 1 / (1 + npStd sq (presses ++ gaps))
  let acceleration := if 3 < presses.length then
      (let mid := presses.length / 2
       let first_half_avg := npMean (presses.take mid)
       let second_half_avg := npMean (presses.drop mid)
       if 0 < first_half_avg then (second_half_avg - first_half_avg) / first_half_avg else 0)
    else 0
  let slope := if 2 < presses.length then polyfit_slope presses else 0
  let gap_slope := if 2 < gaps.length then polyfit_slope gaps else 0
  [total_time, elements_per_second, rhythm_stability, acceleration, slope, gap_slope]

/-- `OptimizedFeatureExtractor.extract` (lines 30-79): replace an empty
press or gap list by the sentinel [0.001], normalize by the estimated
dot duration, and concatenate the four feature blocks in the fixed
order position(8) ++ rhythm(8) ++ statistical(10) ++ temporal(6). -/
def OptimizedFeatureExtractor.extract (sq : ℚ → ℚ) (ddt : ℚ)
    (presses0 gaps0 : List ℚ) : List ℚ :=
  let presses := if presses0.length = 0 then [1/1000] else presses0
  let gaps := if gaps0.length = 0 then [1/1000] else gaps0
  let base_unit := OptimizedFeatureExtractor.estimate_dot_duration presses
  let norm_presses := presses.map (fun p => p / base_unit)
  let norm_gaps := gaps.map (fun g => g / base_unit)
  OptimizedFeatureExtractor.position_features norm_presses norm_gaps
    ++ OptimizedFeatureExtractor.morse_features sq ddt presses gaps base_unit
    ++ OptimizedFeatureExtractor.statistical_features sq norm_presses norm_gaps
    ++ OptimizedFeatureExtractor.temporal_features sq presses gaps

/-- C3: `extract` always returns exactly 32 dimensions and never raises
(it is total on all inputs, not only positive ones), and an empty press
or gap list is replaced by the single sentinel duration 0.001: the
result on the empty list coincides with the result on [0.001].  In this
exact-rational embedding every returned entry is a rational number, the
counterpart of the finite / non-NaN requirement. -/
theorem C3_extract_dimension (sq : ℚ → ℚ) (ddt : ℚ) (presses gaps : List ℚ) :
    (OptimizedFeatureExtractor.extract sq ddt presses gaps).length = 32 ∧
    OptimizedFeatureExtractor.extract sq ddt [] gaps
      = OptimizedFeatureExtractor.extract sq ddt [1/1000] gaps ∧
    OptimizedFeatureExtractor.extract sq ddt presses []
      = OptimizedFeatureExtractor.extract sq ddt presses [1/1000] := by
  refine ⟨?_, ?_, ?_⟩ <;> rfl

/-- `RhythmAnalyzer._analyze_dot_dash_separation` (lines 223-258): fewer
than 3 presses → 0.5; zero estimated dot duration → 0.0; one empty
class → 0.7; otherwise 1 − relative error of the dash/dot mean ratio
against the canonical 3.0, clamped to [0, 1]. -/
def RhythmAnalyzer.analyze_dot_dash_separation (presses : List ℚ) : ℚ :=
  if presses.length < 3 then 1/2
  else
    let dot_duration := percentile presses 25
    if dot_duration = 0 then 0
    else
      let threshold := dot_duration * 2
      let dots := presses.filter (fun p => p < threshold)
      let dashes := presses.filter (fun p => threshold ≤ p)
      if dots.length = 0 ∨ dashes.length = 0 then 7/10
      else
        let actual_rat := if 0 < npMean dots then npMean dashes / npMean dots else 0
        let rat_error := |actual_rat - 3| / 3
        max 0 (min 1 (1 - rat_error))

lemma lin_interp_pos (s : List ℚ) (h : ℚ) (hpos : ∀ x ∈ s, 0 < x)
    (h0 : 0 ≤ h) (hle : h ≤ (s.length : ℚ) - 1) : 0 < lin_interp s h := by
  simp only [lin_interp]
  have hfl0 : (0 : ℤ) ≤ ⌊h⌋ := Int.floor_nonneg.mpr h0
  set i := (⌊h⌋).toNat with hidef
  have hiz : (i : ℤ) = ⌊h⌋ := Int.toNat_of_nonneg hfl0
  have hic : (i : ℚ) ≤ h := by
    have hf := Int.floor_le h
    rw [← hiz] at hf
    exact_mod_cast hf
  have hfrac : h - (i : ℚ) < 1 := by
    have hf := Int.lt_floor_add_one h
    rw [← hiz] at hf
    push_cast at hf
    linarith
  have hin : i < s.length := by
    have hq : (i : ℚ) < (s.length : ℚ) := by
      have := hic.trans hle
      linarith
    exact_mod_cast hq
  have hlo : 0 < s.getD i 0 := by
    rw [List.getD_eq_getElem s 0 hin]
    exact hpos _ (List.getElem_mem hin)
  have hhi : 0 < s.getD (i + 1) (s.getD i 0) := by
    by_cases hc : i + 1 < s.length
    · rw [List.getD_eq_getElem s _ hc]
      exact hpos _ (List.getElem_mem hc)
    · rw [List.getD_eq_default s _ (by omega)]
      exact hlo
  nlinarith [mul_nonneg (sub_nonneg.mpr hic) hhi.le,
    mul_pos (sub_pos.mpr hfrac) hlo]

lemma percentile_pos (xs : List ℚ) (q : ℚ) (hne : xs ≠ [])
    (hpos : ∀ x ∈ xs, 0 < x) (hq0 : 0 ≤ q) (hq1 : q ≤ 100) :
    0 < percentile xs q := by
  have hlen : xs.length ≠ 0 := (List.length_pos.mpr hne).ne'
  have h1 : (1 : ℚ) ≤ xs.length := by
    exact_mod_cast Nat.one_le_iff_ne_zero.mpr hlen
  unfold percentile
  rw [if_neg hlen]
  apply lin_interp_pos
  · intro x hx
    exact hpos x ((List.mem_insertionSort _).mp hx)
  · exact div_nonneg (mul_nonneg (by linarith) hq0) (by norm_num)
  · rw [List.length_insertionSort, div_le_iff₀ (by norm_num : (0:ℚ) < 100)]
    nlinarith

/-- C8 (amended): for every press list with at least 3 elements, all
positive, whose dot/dash classification at threshold
25th-percentile × 2.0 leaves one of the two classes empty, the
dot/dash-separation sub-score is exactly 0.7. -/
theorem C8_one_class_neutral (presses : List ℚ) (h3 : 3 ≤ presses.length)
    (hpos : ∀ x ∈ presses, 0 < x)
    (hempty : (presses.filter (fun p => p < percentile presses 25 * 2)).length = 0 ∨
      (presses.filter (fun p => percentile presses 25 * 2 ≤ p)).length = 0) :
    RhythmAnalyzer.analyze_dot_dash_separation presses = 7/10 := by
  have hne : presses ≠ [] := by
    intro hcon
    rw [hcon] at h3
    simp at h3
  have hdot : 0 < percentile presses 25 :=
    percentile_pos presses 25 hne hpos (by norm_num) (by norm_num)
  simp only [RhythmAnalyzer.analyze_dot_dash_separation]
  rw [if_neg (by omega : ¬ presses.length < 3), if_neg hdot.ne', if_pos hempty]

lemma percentile_111 : percentile ([1, 1, 1] : List ℚ) 25 = 1 := by
  norm_num [percentile, lin_interp, List.insertionSort, List.orderedInsert]

lemma dashes_empty_111 :
    ((([1, 1, 1] : List ℚ).filter (fun p => percentile [1, 1, 1] 25 * 2 ≤ p)).length = 0) := by
  simp only [percentile_111, one_mul]
  decide

theorem C8_witness :
    (3 ≤ ([1, 1, 1] : List ℚ).length ∧ (∀ x ∈ ([1, 1, 1] : List ℚ), 0 < x)) ∧
    RhythmAnalyzer.analyze_dot_dash_separation [1, 1, 1] = 7/10 :=
  ⟨⟨by decide, by decide⟩,
    C8_one_class_neutral [1, 1, 1] (by decide) (by decide) (Or.inr dashes_empty_111)⟩

lemma percentile_11 : percentile ([1, 1] : List ℚ) 25 = 1 := by
  norm_num [percentile, lin_interp, List.insertionSort, List.orderedInsert]

/-- C8 counterexample: [1, 1] is a non-empty list of positive presses
whose dash class is empty under the classification threshold, yet the
sub-score is 0.5 (the fewer-than-3 fallback), not 0.7. -/
theorem C8_counterexample :
    (([1, 1] : List ℚ) ≠ [] ∧ (∀ x ∈ ([1, 1] : List ℚ), 0 < x) ∧
     ((([1, 1] : List ℚ).filter (fun p => percentile [1, 1] 25 * 2 ≤ p)).length = 0)) ∧
    RhythmAnalyzer.analyze_dot_dash_separation [1, 1] ≠ 7/10 := by
  refine ⟨⟨by decide, by decide, ?_⟩, ?_⟩
  · simp only [percentile_11, one_mul]
    decide
  · have hv : RhythmAnalyzer.analyze_dot_dash_separation [1, 1] = 1/2 := by
      norm_num [RhythmAnalyzer.analyze_dot_dash_separation]
    rw [hv]
    norm_num
